import Mathlib

/-!
Shallow embedding of the couchbase-cluster bootstrap agent (`cluster.go`)
and proofs about its cluster-coordination logic.

Effectful inputs (etcd responses, HTTP responses, host memory readings) are
passed to each embedded function as explicit parameters; the embedded
functions reproduce the source's decision logic on those inputs.  Errors are
modelled as `String` messages (Go `error` values carry a message), absence of
an error as `none` / `Except.ok`.
-/

namespace CbCluster

/-- Whether the second character list is an initial segment of the first. -/
def startsWith : List Char → List Char → Bool
  | _, [] => true
  | [], _ :: _ => false
  | c :: cs, d :: ds => c == d && startsWith cs ds

/-- Whether `sub` occurs as a contiguous segment of `s`. -/
def containsSeq : List Char → List Char → Bool
  | s, sub =>
    if startsWith s sub then true
    else
      match s with
      | [] => false
      | _ :: cs => containsSeq cs sub

/-- Go `strings.Contains s sub`: `sub` occurs as a substring of `s`. -/
def stringsContains (s sub : String) : Bool :=
  containsSeq s.toList sub.toList

/-- Splits a character list at every occurrence of the character `sep`;
always returns at least one part.  This is Go `strings.Split` for a
one-character separator, the only kind the source splits on. -/
def splitOnChar (sep : Char) : List Char → List (List Char)
  | [] => [[]]
  | c :: cs =>
    if c == sep then [] :: splitOnChar sep cs
    else
      match splitOnChar sep cs with
      | [] => [[c]]
      | r :: rs => (c :: r) :: rs

/-- Go `strings.Split s sep` for a one-character separator. -/
def goSplit (s : String) (sep : Char) : List String :=
  (splitOnChar sep s.toList).map (fun cs => String.mk cs)

/-- Go `path.Split`'s second component: everything after the final `/`
(the whole string when there is no `/`). -/
def pathFileName (p : String) : String :=
  (goSplit p '/').getLastD ""

/-- JSON values as decoded by Go's `encoding/json` into `interface{}`:
strings, numbers, objects, arrays, booleans and null. -/
inductive Json where
  | str (s : String)
  | num (n : Int)
  | obj (fields : List (String × Json))
  | arr (elems : List Json)
  | bool (b : Bool)
  | null
deriving Repr

/-- Go map indexing `m[k]` on a decoded JSON object: the value at the first
matching key, or nothing (Go: the nil interface) when the key is absent. -/
def jsonLookup (fields : List (String × Json)) (k : String) : Option Json :=
  (fields.find? (fun p => p.1 == k)).map (fun p => p.2)

/-!  ## Membership coordinator: `BecomeFirstClusterNode` (cluster.go:120) -/

/-- `BecomeFirstClusterNode`: attempts `etcdClient.CreateDir` on the
membership directory.  `createDirResult` is the outcome of that call
(`none` = created, `some err` = the etcd error message).  Returns
`(isFirst, error)` exactly as the source does: success means first node;
a "Key already exists" error is absorbed as `(false, nil)`; any other
error is propagated as `(false, err)`. -/
def BecomeFirstClusterNode (createDirResult : Option String) : Bool × Option String :=
  match createDirResult with
  | none => (true, none)
  | some err =>
    if stringsContains err "Key already exists" then
      (false, none)
    else
      (false, some err)

/-!  ## RAM sizing: `CalculateClusterRam`, `SetClusterRam` (cluster.go:412-442) -/

/-- Reinterpretation of an integer modulo `2^64` as a signed
(two's-complement) 64-bit value: the wrap-around that Go `int`
arithmetic performs on overflow. -/
def toInt64 (x : Int) : Int :=
  if x % 2 ^ 64 < 2 ^ 63 then x % 2 ^ 64 else x % 2 ^ 64 - 2 ^ 64

/-- Go 64-bit `int` multiplication: the mathematical product wrapped to
the signed 64-bit range. -/
def goMul64 (a b : Int) : Int := toInt64 (a * b)

/-- `CalculateClusterRam`: takes the outcome of `CalculateTotalRam` —
the host's total memory in MB, a Go `int` parsed by `strconv.Atoi` from
a digits-only regex match, hence in `[0, 2^63)` — and returns 75% of it:
the wrapping 64-bit product with 75, then Go's truncating division by
100 (`Int.tdiv`; the quotient itself cannot overflow), formatted as a
string.  A read error is propagated. -/
def CalculateClusterRam (totalRam : Except String Int) : Except String String :=
  match totalRam with
  | .error e => .error e
  | .ok totalRamMb => .ok (toString (Int.tdiv (goMul64 totalRamMb 75) 100))

/-- `SetClusterRam`: computes the cluster RAM quota, substituting
`"1024"` when `CalculateClusterRam` fails, then POSTs the quota;
`postResult` maps the posted quota to the POST's outcome. -/
def SetClusterRam (totalRam : Except String Int) (postResult : String → Option String) :
    Option String :=
  match CalculateClusterRam totalRam with
  | .error _ => postResult "1024"
  | .ok ramMb => postResult ramMb

/-!  ## Membership coordinator: `FindLiveNode` (cluster.go:183) -/

/-- `FindLiveNode`: reads the membership directory.  `getResult` is the
outcome of `etcdClient.Get` on that key: an error, or a response whose
node is nil (`none`), or a node with the given children keys.  Returns
the first child's address — the last path element of its key — or `""`
when the node is nil or has no children; a `Get` error is wrapped and
propagated. -/
def FindLiveNode (getResult : Except String (Option (List String))) : String × Option String :=
  match getResult with
  | .error e => ("", some ("Error getting key.  Err: " ++ e))
  | .ok none => ("", none)
  | .ok (some []) => ("", none)
  | .ok (some (subNodeKey :: _)) => (pathFileName subNodeKey, none)

/-!  ## Cluster REST gateway: `POST` (cluster.go:880) and consumers -/

/-- `POST`: issues the HTTP POST.  `doResult` is the transport outcome:
an error from `client.Do`, or a response with status code and body.
Any status outside 200–299 becomes an error carrying the status code
and body. -/
def POST (endpointUrl : String) (doResult : Except String (Int × String)) : Option String :=
  match doResult with
  | .error e => some e
  | .ok (statusCode, body) =>
    if statusCode < 200 ∨ statusCode > 299 then
      some ("Failed to POST to " ++ endpointUrl ++ ".  Status code: " ++
        toString statusCode ++ ".  Body: " ++ body)
    else
      none

/-- `AddNode` (cluster.go:778): POSTs to `/controller/addNode` and absorbs
the harmless "Node is already part of cluster" failure as success; every
other failure is returned. -/
def AddNode (endpointUrl : String) (doResult : Except String (Int × String)) : Option String :=
  match POST endpointUrl doResult with
  | none => none
  | some e =>
    if stringsContains e "Node is already part of cluster" then none
    else some e

/-!  ## Cluster topology: `GetClusterNodes` and consumers (cluster.go:620-747) -/

/-- `GetClusterNodes` (cluster.go:726): `fetched` is the outcome of
decoding `GET /pools/default` into a JSON object (an error, or the
object's fields).  Extracts the `nodes` field, which must be an array. -/
def GetClusterNodes (fetched : Except String (List (String × Json))) : Except String (List Json) :=
  match fetched with
  | .error e => .error e
  | .ok jsonMap =>
    match jsonLookup jsonMap "nodes" with
    | some (.arr nodeMaps) => .ok nodeMaps
    | _ => .error "Unexpected data type in nodes field"

/-- The node-scanning loop of `CheckNumNodesClusterHealthy`
(cluster.go:633-650): every entry must be an object with a string
`status` field; a status other than `"healthy"` yields `(false, nil)`;
a malformed entry is an error. -/
def checkNodesHealthy : List Json → Bool × Option String
  | [] => (true, none)
  | node :: rest =>
    match node with
    | .obj nodeMap =>
      match jsonLookup nodeMap "status" with
      | some (.str statusStr) =>
        if statusStr ≠ "healthy" then (false, none) else checkNodesHealthy rest
      | _ => (false, some "No status string found")
    | _ => (false, some "Node had unexpected data type")

/-- `CheckNumNodesClusterHealthy` (cluster.go:620): fetches the node list
from a live node and checks that at least `numNodes` nodes exist (unless
`numNodes = -1`) and that all listed nodes are healthy.  The size check
happens before any status is inspected. -/
def CheckNumNodesClusterHealthy (numNodes : Int)
    (fetched : Except String (List (String × Json))) : Bool × Option String :=
  match GetClusterNodes fetched with
  | .error e => (false, some e)
  | .ok nodes =>
    if numNodes ≠ -1 ∧ (nodes.length : Int) < numNodes then (false, none)
    else checkNodesHealthy nodes

/-- The node-scanning loop of `OtpNodeList` (cluster.go:703-720): every
entry must be an object with a string `otpNode` field; the values are
collected in order and the first malformed entry aborts with an error. -/
def otpNodesOf : List Json → Except String (List String)
  | [] => .ok []
  | node :: rest =>
    match node with
    | .obj nodeMap =>
      match jsonLookup nodeMap "otpNode" with
      | some (.str otpNodeStr) =>
        match otpNodesOf rest with
        | .error e => .error e
        | .ok tail => .ok (otpNodeStr :: tail)
      | _ => .error "No otpNode string found"
    | _ => .error "Node had unexpected data type"

/-- `OtpNodeList` (cluster.go:694): the internal node identifiers of all
cluster nodes, as reported by a live node. -/
def OtpNodeList (fetched : Except String (List (String × Json))) : Except String (List String) :=
  match GetClusterNodes fetched with
  | .error e => .error e
  | .ok nodes => otpNodesOf nodes

/-- `TriggerRebalance` (cluster.go:665): fetches the internal node
identifier list and POSTs a rebalance naming them all as known nodes
with no ejected nodes.  NOTE: the source's error branch is
`if err != nil { return nil }` (cluster.go:670-672) — an `OtpNodeList`
failure makes the function return success without POSTing anything.
This embedding reproduces that behaviour verbatim. -/
def TriggerRebalance (fetched : Except String (List (String × Json)))
    (postResult : List String → Option String) : Option String :=
  match OtpNodeList fetched with
  | .error _ => none
  | .ok otpNodeList => postResult otpNodeList

/-!  ## Default bucket detection: `HasDefaultBucket` (cluster.go:510) -/

/-- The bucket-scanning loop of `HasDefaultBucket` (cluster.go:525-539):
entries that are not objects, or whose `name` field is not a string, are
skipped; the scan succeeds on the first entry named `"default"`. -/
def bucketListHasDefault : List Json → Bool
  | [] => false
  | bucketEntry :: rest =>
    match bucketEntry with
    | .obj bucketEntryMap =>
      match jsonLookup bucketEntryMap "name" with
      | some (.str name) =>
        if name == "default" then true else bucketListHasDefault rest
      | _ => bucketListHasDefault rest
    | _ => bucketListHasDefault rest

/-- `HasDefaultBucket`: `fetched` is the outcome of decoding
`GET /pools/default/buckets` into a JSON list; a fetch or decode error is
propagated, otherwise the decoded list is scanned for a bucket named
`"default"`. -/
def HasDefaultBucket (fetched : Except String (List Json)) : Bool × Option String :=
  match fetched with
  | .error e => (false, some e)
  | .ok jsonList => (bucketListHasDefault jsonList, none)

/-!  ## Retry loop engine: `RetryLoop` (cluster.go:995) -/

/-- The "retries exhausted" message built at cluster.go:1011. -/
def retryExhaustedMsg (numAttempts : Nat) : String :=
  "RetryLoop giving up after " ++ toString numAttempts ++ " attempts"

/-- `RetryLoop`: repeatedly invokes the worker, starting at attempt
number 1.  The worker and sleeper are modelled as functions of the
attempt number (both are consulted with the same `numAttempts` counter
the source maintains).  The loop can run forever, so it is embedded with
fuel: `none` means the loop was still running when the fuel ran out;
`some none` is the no-error return; `some (some e)` is an error return.
Per the source, the worker's error is checked first, then its done flag,
and only then is the sleeper consulted. -/
def RetryLoop (worker : Nat → Bool × Option String) (sleeper : Nat → Bool × Int) :
    Nat → Nat → Option (Option String)
  | 0, _ => none
  | fuel + 1, numAttempts =>
    match worker numAttempts with
    | (_, some err) => some (some err)
    | (true, none) => some none
    | (false, none) =>
      match sleeper numAttempts with
      | (false, _) => some (some (retryExhaustedMsg numAttempts))
      | (true, _) => RetryLoop worker sleeper fuel (numAttempts + 1)

/-!  ## Join orchestration: `JoinExistingCluster` (cluster.go:148) -/

/-- `MAX_RETRIES_JOIN_CLUSTER` (cluster.go:24). -/
def MAX_RETRIES_JOIN_CLUSTER : Nat := 10

/-- The loop body of `JoinExistingCluster`: `gets i` is the etcd `Get`
outcome that `FindLiveNode` sees on attempt `i` (0-based, as in the
source's `for i := 0; i < 10`); `joinLiveNode` maps a discovered peer
address to the outcome of `JoinLiveNode`.  `remaining` counts the
attempts left.  Returns the final outcome together with the list of
sleep durations performed (the source does `sleepSeconds += 10` then
sleeps after every attempt that found no peer). -/
def joinLoop (gets : Nat → Except String (Option (List String)))
    (joinLiveNode : String → Option String) :
    Nat → Nat → Nat → Option String × List Nat
  | _, _, 0 => (some "Failed to join cluster after several retries", [])
  | i, sleepSeconds, remaining + 1 =>
    let liveNodeIp := (FindLiveNode (gets i)).1
    if liveNodeIp ≠ "" then (joinLiveNode liveNodeIp, [])
    else
      let s := sleepSeconds + 10
      let r := joinLoop gets joinLiveNode (i + 1) s remaining
      (r.1, s :: r.2)

/-- `JoinExistingCluster`: up to `MAX_RETRIES_JOIN_CLUSTER` peer-discovery
attempts starting with `sleepSeconds = 0`.  (The source logs but otherwise
ignores a `FindLiveNode` error; only the returned address — `""` in every
error case — is consulted.) -/
def JoinExistingCluster (gets : Nat → Except String (Option (List String)))
    (joinLiveNode : String → Option String) : Option String × List Nat :=
  joinLoop gets joinLiveNode 0 0 MAX_RETRIES_JOIN_CLUSTER

/-!  ## Admin credentials: `LoadAdminCredsFromEtcd` (cluster.go:1088) -/

/-- The two credential fields of `CouchbaseCluster` that
`LoadAdminCredsFromEtcd` assigns. -/
structure Creds where
  AdminUsername : String
  AdminPassword : String
deriving Repr, DecidableEq

/-- The loop body of `LoadAdminCredsFromEtcd`: `gets i` is the etcd `Get`
outcome on attempt `i` (0-based); `c` holds the current credential
fields.  A `Get` error sleeps and retries; a value without `":"` is an
immediate error return leaving the fields as they were; otherwise the
value is split on `":"` and the first two components are assigned. -/
def loadCredsLoop (gets : Nat → Except String String) (c : Creds) :
    Nat → Nat → Creds × Option String
  | _, 0 => (c, some "Unable to load admin creds after several retries")
  | i, remaining + 1 =>
    match gets i with
    | .error _ => loadCredsLoop gets c (i + 1) remaining
    | .ok userpassRaw =>
      if stringsContains userpassRaw ":" then
        let userpassComponents := goSplit userpassRaw ':'
        ({ AdminUsername := userpassComponents.getD 0 "",
           AdminPassword := userpassComponents.getD 1 "" }, none)
      else
        (c, some ("Invalid user/pass: " ++ userpassRaw))

/-- `LoadAdminCredsFromEtcd`: up to `MAX_RETRIES_JOIN_CLUSTER` attempts to
read the credentials key. -/
def LoadAdminCredsFromEtcd (gets : Nat → Except String String) (c : Creds) :
    Creds × Option String :=
  loadCredsLoop gets c 0 MAX_RETRIES_JOIN_CLUSTER

/-!  ## Theorems -/

/-- Claim C1: `BecomeFirstClusterNode` returns `(true, no error)` exactly
when the atomic directory creation succeeds; a creation failure whose
message says the key already exists yields `(false, no error)`; every
other creation failure is propagated as `(false, that error)`. -/
theorem becomeFirstClusterNode_spec :
    BecomeFirstClusterNode none = (true, none) ∧
    (∀ err : String, stringsContains err "Key already exists" = true →
      BecomeFirstClusterNode (some err) = (false, none)) ∧
    (∀ err : String, stringsContains err "Key already exists" = false →
      BecomeFirstClusterNode (some err) = (false, some err)) := by
  refine ⟨rfl, fun err h => ?_, fun err h => ?_⟩
  · simp [BecomeFirstClusterNode, h]
  · simp [BecomeFirstClusterNode, h]

/-- Witness for C1 at concrete etcd outcomes: the "already exists" branch
on the message go-etcd actually produces, and an unrelated error. -/
theorem becomeFirstClusterNode_spec_witness :
    BecomeFirstClusterNode (some "105: Key already exists (/couchbase.com/couchbase-node-state)") = (false, none) ∧
    BecomeFirstClusterNode (some "501: All the given peers are not reachable") = (false, some "501: All the given peers are not reachable") := by
  exact ⟨becomeFirstClusterNode_spec.2.1 _ (by decide),
         becomeFirstClusterNode_spec.2.2 _ (by decide)⟩

/-- When the 64-bit product does not overflow, the quota is the
mathematical `(n * 75) / 100`. -/
theorem calculateClusterRam_no_overflow (n : Int) (h0 : 0 ≤ n)
    (h1 : n * 75 < 2 ^ 63) :
    CalculateClusterRam (.ok n) = .ok (toString (n * 75 / 100)) := by
  have hge : 0 ≤ n * 75 := by positivity
  have hm : goMul64 n 75 = n * 75 := by
    unfold goMul64 toInt64
    have hmod : n * 75 % 2 ^ 64 = n * 75 := Int.emod_eq_of_lt hge (by omega)
    rw [hmod, if_pos h1]
  have hd : Int.tdiv (n * 75) 100 = n * 75 / 100 :=
    Int.tdiv_eq_ediv hge (by omega)
  simp [CalculateClusterRam, hm, hd]

/-- Claim C7 (amended): for every host total-memory reading of `n` MB
whose 64-bit product with 75 does not overflow (`n * 75 < 2^63`, true of
every physically possible memory size), the cluster RAM quota is
`(n * 75) / 100` in integer arithmetic — 4000 MB yields 3000 MB — and on
a memory-read failure `SetClusterRam` substitutes 1024 MB and proceeds
with the POST instead of returning the read error.  For `Atoi`-admissible
readings at or beyond `2^63 / 75` the source's product wraps; see the
counterexample theorem. -/
theorem clusterRam_spec :
    (∀ n : Int, 0 ≤ n → n * 75 < 2 ^ 63 →
      CalculateClusterRam (.ok n) = .ok (toString (n * 75 / 100))) ∧
    CalculateClusterRam (.ok 4000) = .ok "3000" ∧
    (∀ (e : String) (post : String → Option String),
      SetClusterRam (.error e) post = post "1024") ∧
    (∀ (n : Int) (post : String → Option String), 0 ≤ n → n * 75 < 2 ^ 63 →
      SetClusterRam (.ok n) post = post (toString (n * 75 / 100))) := by
  refine ⟨fun n h0 h1 => calculateClusterRam_no_overflow n h0 h1, rfl,
    fun e post => rfl, fun n post h0 h1 => ?_⟩
  unfold SetClusterRam
  rw [calculateClusterRam_no_overflow n h0 h1]

/-- Witness for C7 at the concrete reading of 4000 MB: the quota is
3000 MB and it is what gets POSTed. -/
theorem clusterRam_spec_witness :
    CalculateClusterRam (.ok 4000) = .ok "3000" ∧
    SetClusterRam (.ok 4000) some = some "3000" :=
  ⟨clusterRam_spec.1 4000 (by decide) (by omega),
   clusterRam_spec.2.2.2 4000 some (by decide) (by omega)⟩

/-- Claim C7 as originally stated fails on the code: at the
`Atoi`-admissible reading of 122978293824730345 MB the 64-bit product
with 75 wraps negative, so the source computes the quota
"-92233720368547757" whereas `(N * 75) / 100` in integer arithmetic is
"92233720368547758". -/
theorem calculateClusterRam_overflow_counterexample :
    CalculateClusterRam (.ok 122978293824730345) = .ok "-92233720368547757" ∧
    toString ((122978293824730345 * 75 : Int) / 100) = "92233720368547758" ∧
    ("-92233720368547757" : String) ≠ "92233720368547758" :=
  ⟨rfl, rfl, by decide⟩

/-- Claim C3: when the membership directory is absent (nil node in the
`Get` response, the non-error "absent" outcome of the store's `get`
interface) or has no children, `FindLiveNode` returns the empty string
with no error; when it has at least one child, it returns the first
child's address — the last path element of its key — with no error.
The final conjunct evaluates this on a realistic child key. -/
theorem findLiveNode_spec :
    FindLiveNode (.ok none) = ("", none) ∧
    FindLiveNode (.ok (some [])) = ("", none) ∧
    (∀ (subNodeKey : String) (rest : List String),
      FindLiveNode (.ok (some (subNodeKey :: rest))) = (pathFileName subNodeKey, none)) ∧
    FindLiveNode (.ok (some ["/couchbase.com/couchbase-node-state/172.17.8.101:8091"])) =
      ("172.17.8.101:8091", none) := by
  refine ⟨rfl, rfl, fun subNodeKey rest => rfl, by decide⟩

/-- Claim C4 (code bug): on a topology fetch whose node entry lacks the
`otpNode` field, `OtpNodeList` fails, yet `TriggerRebalance` returns
success (`none`) for every possible POST outcome — the source discards
the error (`if err != nil { return nil }`, cluster.go:670-672) instead of
propagating it as the claim states. -/
theorem triggerRebalance_drops_otpNodeList_error :
    OtpNodeList (.ok [("nodes", Json.arr [Json.obj []])]) =
      .error "No otpNode string found" ∧
    (∀ postResult : List String → Option String,
      TriggerRebalance (.ok [("nodes", Json.arr [Json.obj []])]) postResult = none) := by
  exact ⟨rfl, fun postResult => rfl⟩

/-- Claim C5: whenever `numNodes ≠ -1` and fewer nodes are listed than
`numNodes`, `CheckNumNodesClusterHealthy` returns `(false, no error)` —
the conclusion holds for every possible node list, so no member's status
is inspected; in particular with `numNodes = 3` and exactly two listed
members of arbitrary shape the result is `(false, none)`. -/
theorem checkNumNodesClusterHealthy_spec :
    (∀ (numNodes : Int) (fetched : Except String (List (String × Json)))
        (nodes : List Json),
      GetClusterNodes fetched = .ok nodes →
      numNodes ≠ -1 →
      (nodes.length : Int) < numNodes →
      CheckNumNodesClusterHealthy numNodes fetched = (false, none)) ∧
    (∀ n1 n2 : Json,
      CheckNumNodesClusterHealthy 3 (.ok [("nodes", Json.arr [n1, n2])]) =
        (false, none)) := by
  constructor
  · intro numNodes fetched nodes hget hne hlt
    unfold CheckNumNodesClusterHealthy
    rw [hget]
    simp [hne, hlt]
  · intro n1 n2
    rfl

/-- Witness for C5 at a concrete input: two members with non-"healthy"
statuses, `minExpected = 3`. -/
theorem checkNumNodesClusterHealthy_spec_witness :
    CheckNumNodesClusterHealthy 3
      (.ok [("nodes", Json.arr
        [Json.obj [("status", Json.str "warmup")],
         Json.obj [("status", Json.str "unhealthy")]])]) = (false, none) :=
  checkNumNodesClusterHealthy_spec.1 3 _
    [Json.obj [("status", Json.str "warmup")],
     Json.obj [("status", Json.str "unhealthy")]]
    rfl (by decide) (by decide)

/-- Claim C6: `AddNode` returns no error when the POST succeeds (2xx
status) and also when the POST fails with an error whose text contains
"Node is already part of cluster"; every other POST failure is returned
unchanged. -/
theorem addNode_spec :
    (∀ (endpointUrl : String) (statusCode : Int) (body : String),
      200 ≤ statusCode → statusCode ≤ 299 →
      AddNode endpointUrl (.ok (statusCode, body)) = none) ∧
    (∀ (endpointUrl : String) (doResult : Except String (Int × String)) (e : String),
      POST endpointUrl doResult = some e →
      stringsContains e "Node is already part of cluster" = true →
      AddNode endpointUrl doResult = none) ∧
    (∀ (endpointUrl : String) (doResult : Except String (Int × String)) (e : String),
      POST endpointUrl doResult = some e →
      stringsContains e "Node is already part of cluster" = false →
      AddNode endpointUrl doResult = some e) := by
  refine ⟨?_, ?_, ?_⟩
  · intro endpointUrl statusCode body h1 h2
    have hp : POST endpointUrl (.ok (statusCode, body)) = none := by
      have hrange : ¬(statusCode < 200 ∨ statusCode > 299) := by omega
      simp [POST, hrange]
    simp [AddNode, hp]
  · intro endpointUrl doResult e hp hc
    simp [AddNode, hp, hc]
  · intro endpointUrl doResult e hp hc
    simp [AddNode, hp, hc]

/-- Witness for C6 at concrete POST outcomes: a 2xx success, a 400
failure whose body reports the node is already in the cluster, and an
unrelated 500 failure. -/
theorem addNode_spec_witness :
    AddNode "u" (.ok (200, "ok")) = none ∧
    AddNode "u" (.ok (400, "[\"Node is already part of cluster\"]")) = none ∧
    AddNode "u" (.ok (500, "boom")) =
      some "Failed to POST to u.  Status code: 500.  Body: boom" :=
  ⟨addNode_spec.1 "u" 200 "ok" (by decide) (by decide),
   addNode_spec.2.1 "u" (.ok (400, "[\"Node is already part of cluster\"]")) _
     rfl (by decide),
   addNode_spec.2.2 "u" (.ok (500, "boom")) _ rfl (by decide)⟩

/-- The bucket scan finds `"default"` exactly when some entry is an object
whose `name` field is the string `"default"`. -/
theorem bucketListHasDefault_iff (l : List Json) :
    bucketListHasDefault l = true ↔
      ∃ fields : List (String × Json),
        Json.obj fields ∈ l ∧
        jsonLookup fields "name" = some (Json.str "default") := by
  induction l with
  | nil => simp [bucketListHasDefault]
  | cons b rest ih =>
    have step : bucketListHasDefault (b :: rest) = true ↔
        (∃ fields : List (String × Json),
          b = Json.obj fields ∧
          jsonLookup fields "name" = some (Json.str "default")) ∨
        bucketListHasDefault rest = true := by
      cases b with
      | obj fields =>
        cases hlook : jsonLookup fields "name" with
        | none => simp [bucketListHasDefault, hlook]
        | some j =>
          cases j with
          | str name =>
            by_cases hdef : name = "default"
            · subst hdef
              simp [bucketListHasDefault, hlook]
            · simp [bucketListHasDefault, hlook, hdef]
          | num n => simp [bucketListHasDefault, hlook]
          | obj f => simp [bucketListHasDefault, hlook]
          | arr a => simp [bucketListHasDefault, hlook]
          | bool v => simp [bucketListHasDefault, hlook]
          | null => simp [bucketListHasDefault, hlook]
      | str s => simp [bucketListHasDefault]
      | num n => simp [bucketListHasDefault]
      | arr a => simp [bucketListHasDefault]
      | bool v => simp [bucketListHasDefault]
      | null => simp [bucketListHasDefault]
    rw [step, ih]
    constructor
    · rintro (⟨fields, rfl, hl⟩ | ⟨fields, hf, hl⟩)
      · exact ⟨fields, List.mem_cons_self _ _, hl⟩
      · exact ⟨fields, List.mem_cons_of_mem _ hf, hl⟩
    · rintro ⟨fields, hf, hl⟩
      rcases List.mem_cons.mp hf with hb | hmem
      · exact Or.inl ⟨fields, hb.symm, hl⟩
      · exact Or.inr ⟨fields, hmem, hl⟩

/-- Claim C10: on a successfully fetched bucket list, `HasDefaultBucket`
reports no error and answers `true` exactly when some entry is an object
whose `name` field is the string `"default"` (malformed entries are
skipped, not errors); a fetch or decode failure is the only error case. -/
theorem hasDefaultBucket_spec :
    (∀ l : List Json,
      (HasDefaultBucket (.ok l)).2 = none ∧
      ((HasDefaultBucket (.ok l)).1 = true ↔
        ∃ fields : List (String × Json),
          Json.obj fields ∈ l ∧
          jsonLookup fields "name" = some (Json.str "default"))) ∧
    (∀ e : String, HasDefaultBucket (.error e) = (false, some e)) := by
  refine ⟨fun l => ⟨rfl, ?_⟩, fun e => rfl⟩
  exact bucketListHasDefault_iff l

/-- One `RetryLoop` iteration in which the worker neither finishes nor
errors and the sleeper allows continuing. -/
theorem retryLoop_step_continue (worker : Nat → Bool × Option String)
    (sleeper : Nat → Bool × Int) (fuel j : Nat)
    (hw : worker j = (false, none)) (hs : (sleeper j).1 = true) :
    RetryLoop worker sleeper (fuel + 1) j = RetryLoop worker sleeper fuel (j + 1) := by
  rcases hsj : sleeper j with ⟨b, t⟩
  rw [hsj] at hs
  simp only at hs
  subst hs
  simp [RetryLoop, hw, hsj]

/-- A `RetryLoop` iteration in which the worker errors returns that error
at once, for every sleeper. -/
theorem retryLoop_step_err (worker : Nat → Bool × Option String)
    (sleeper : Nat → Bool × Int) (fuel j : Nat) (e : String)
    (hw : (worker j).2 = some e) :
    RetryLoop worker sleeper (fuel + 1) j = some (some e) := by
  rcases hwj : worker j with ⟨b, o⟩
  rw [hwj] at hw
  simp only at hw
  subst hw
  cases b <;> simp [RetryLoop, hwj]

/-- Advancing `RetryLoop` over a block of attempts on which the worker
reports "not yet" and the sleeper allows continuing. -/
theorem retryLoop_advance (worker : Nat → Bool × Option String)
    (sleeper : Nat → Bool × Int) :
    ∀ (d fuel j : Nat),
      (∀ i, j ≤ i → i < j + d → worker i = (false, none) ∧ (sleeper i).1 = true) →
      RetryLoop worker sleeper (d + fuel) j = RetryLoop worker sleeper fuel (j + d) := by
  intro d
  induction d with
  | zero => intro fuel j h; simp
  | succ d ih =>
    intro fuel j h
    have hj := h j (Nat.le_refl j) (by omega)
    have h1 : d + 1 + fuel = (d + fuel) + 1 := by omega
    rw [h1, retryLoop_step_continue worker sleeper (d + fuel) j hj.1 hj.2]
    have h2 : j + (d + 1) = (j + 1) + d := by omega
    rw [h2]
    exact ih fuel (j + 1) (fun i hi1 hi2 => h i (by omega) (by omega))

/-- Claim C2: `RetryLoop` (attempts numbered from 1, `fuel` at least the
attempt reached) returns the worker's error unchanged on the first
attempt with a non-nil error, for every sleeper — so the sleeper is not
consulted on that attempt; returns no error on the first attempt where
the worker signals done; and when the sleeper signals stop first, it
returns the "retries exhausted" message for that attempt count — an
error the worker never produced in the run, every consulted worker call
having returned a nil error. -/
theorem retryLoop_spec :
    (∀ (worker : Nat → Bool × Option String) (sleeper : Nat → Bool × Int)
        (k fuel : Nat) (e : String),
      1 ≤ k → k ≤ fuel →
      (∀ j, 1 ≤ j → j < k → worker j = (false, none) ∧ (sleeper j).1 = true) →
      (worker k).2 = some e →
      RetryLoop worker sleeper fuel 1 = some (some e)) ∧
    (∀ (worker : Nat → Bool × Option String) (sleeper : Nat → Bool × Int)
        (k fuel : Nat),
      1 ≤ k → k ≤ fuel →
      (∀ j, 1 ≤ j → j < k → worker j = (false, none) ∧ (sleeper j).1 = true) →
      worker k = (true, none) →
      RetryLoop worker sleeper fuel 1 = some none) ∧
    (∀ (worker : Nat → Bool × Option String) (sleeper : Nat → Bool × Int)
        (k fuel : Nat),
      1 ≤ k → k ≤ fuel →
      (∀ j, 1 ≤ j → j < k → worker j = (false, none) ∧ (sleeper j).1 = true) →
      worker k = (false, none) →
      (sleeper k).1 = false →
      RetryLoop worker sleeper fuel 1 = some (some (retryExhaustedMsg k)) ∧
      (∀ j, 1 ≤ j → j ≤ k → (worker j).2 = none)) := by
  refine ⟨?_, ?_, ?_⟩
  · intro worker sleeper k fuel e hk hkf hpre hw
    obtain ⟨d, rfl⟩ : ∃ d, k = 1 + d := ⟨k - 1, by omega⟩
    obtain ⟨m, rfl⟩ : ∃ m, fuel = d + (m + 1) := ⟨fuel - d - 1, by omega⟩
    rw [retryLoop_advance worker sleeper d (m + 1) 1
      (fun i h1 h2 => hpre i h1 (by omega))]
    exact retryLoop_step_err worker sleeper m (1 + d) e hw
  · intro worker sleeper k fuel hk hkf hpre hw
    obtain ⟨d, rfl⟩ : ∃ d, k = 1 + d := ⟨k - 1, by omega⟩
    obtain ⟨m, rfl⟩ : ∃ m, fuel = d + (m + 1) := ⟨fuel - d - 1, by omega⟩
    rw [retryLoop_advance worker sleeper d (m + 1) 1
      (fun i h1 h2 => hpre i h1 (by omega))]
    simp [RetryLoop, hw]
  · intro worker sleeper k fuel hk hkf hpre hw hs
    obtain ⟨d, rfl⟩ : ∃ d, k = 1 + d := ⟨k - 1, by omega⟩
    obtain ⟨m, rfl⟩ : ∃ m, fuel = d + (m + 1) := ⟨fuel - d - 1, by omega⟩
    constructor
    · rw [retryLoop_advance worker sleeper d (m + 1) 1
        (fun i h1 h2 => hpre i h1 (by omega))]
      rcases hsj : sleeper (1 + d) with ⟨b, t⟩
      rw [hsj] at hs
      simp only at hs
      subst hs
      simp [RetryLoop, hw, hsj]
    · intro j h1 h2
      rcases Nat.lt_or_ge j (1 + d) with h | h
      · rw [(hpre j h1 h).1]
      · have hj : j = 1 + d := by omega
        rw [hj, hw]

/-- Witness for C2 at concrete workers and sleepers: an error on attempt
2, completion on attempt 3, and a sleeper whose budget runs out at
attempt 4. -/
theorem retryLoop_spec_witness :
    RetryLoop (fun i => if i = 2 then (true, some "boom") else (false, none))
      (fun _ => (true, 1)) 5 1 = some (some "boom") ∧
    RetryLoop (fun i => if i = 3 then (true, none) else (false, none))
      (fun _ => (true, 1)) 5 1 = some none ∧
    RetryLoop (fun _ => (false, none))
      (fun i => (decide (i < 4), 1)) 9 1 = some (some (retryExhaustedMsg 4)) := by
  refine ⟨?_, ?_, ?_⟩
  · exact retryLoop_spec.1 _ _ 2 5 "boom" (by omega) (by omega)
      (fun j h1 h2 => by
        have hj : j = 1 := by omega
        subst hj
        exact ⟨rfl, rfl⟩)
      (by decide)
  · exact retryLoop_spec.2.1 _ _ 3 5 (by omega) (by omega)
      (fun j h1 h2 => by
        interval_cases j <;> exact ⟨rfl, rfl⟩)
      (by decide)
  · exact (retryLoop_spec.2.2 _ _ 4 9 (by omega) (by omega)
      (fun j h1 h2 => ⟨rfl, by simp; omega⟩)
      rfl (by decide)).1

/-- One `joinLoop` iteration on which no peer is found: sleep 10 more
seconds than last time and recurse. -/
theorem joinLoop_skip (gets : Nat → Except String (Option (List String)))
    (joinLiveNode : String → Option String) (i s r : Nat)
    (h : (FindLiveNode (gets i)).1 = "") :
    joinLoop gets joinLiveNode i s (r + 1) =
      ((joinLoop gets joinLiveNode (i + 1) (s + 10) r).1,
       (s + 10) :: (joinLoop gets joinLiveNode (i + 1) (s + 10) r).2) := by
  simp [joinLoop, h]

/-- A `joinLoop` iteration on which a peer is found delegates to
`joinLiveNode` at once, with no further sleeping. -/
theorem joinLoop_found (gets : Nat → Except String (Option (List String)))
    (joinLiveNode : String → Option String) (i s r : Nat)
    (h : (FindLiveNode (gets i)).1 ≠ "") :
    joinLoop gets joinLiveNode i s (r + 1) =
      (joinLiveNode (FindLiveNode (gets i)).1, []) := by
  simp [joinLoop, h]

/-- Shifting the linear sleep schedule by one attempt. -/
theorem sleepSchedule_shift (s d : Nat) :
    (List.range (d + 1)).map (fun j => s + 10 * (j + 1)) =
      (s + 10) :: (List.range d).map (fun j => s + 10 + 10 * (j + 1)) := by
  rw [List.range_succ_eq_map, List.map_cons, List.map_map]
  congr 1
  apply List.map_congr_left
  intro a _
  show s + 10 * (a + 1 + 1) = s + 10 + 10 * (a + 1)
  omega

/-- Advancing `joinLoop` over a block of attempts that find no peer:
the sleeps grow by 10 seconds per attempt. -/
theorem joinLoop_advance (gets : Nat → Except String (Option (List String)))
    (joinLiveNode : String → Option String) :
    ∀ (d i s r : Nat),
      (∀ n, i ≤ n → n < i + d → (FindLiveNode (gets n)).1 = "") →
      joinLoop gets joinLiveNode i s (d + r) =
        ((joinLoop gets joinLiveNode (i + d) (s + 10 * d) r).1,
         (List.range d).map (fun j => s + 10 * (j + 1)) ++
           (joinLoop gets joinLiveNode (i + d) (s + 10 * d) r).2) := by
  intro d
  induction d with
  | zero => intro i s r h; simp
  | succ d ih =>
    intro i s r h
    have hd : d + 1 + r = (d + r) + 1 := by omega
    rw [hd, joinLoop_skip gets joinLiveNode i s (d + r)
      (h i (Nat.le_refl i) (by omega))]
    rw [ih (i + 1) (s + 10) r (fun n hn1 hn2 => h n (by omega) (by omega))]
    have hi : i + 1 + d = i + (d + 1) := by omega
    have hs : s + 10 + 10 * d = s + 10 * (d + 1) := by omega
    rw [hi, hs]
    congr 1
    rw [sleepSchedule_shift s d, List.cons_append]

/-- Claim C8: `JoinExistingCluster` makes at most 10 peer-discovery
attempts, sleeping 10 seconds more after each empty attempt; on the
first attempt whose `FindLiveNode` address is non-empty it returns the
join-and-rebalance outcome for that address, and when all 10 attempts
come up empty it returns the fatal "failed to join" error (after sleeps
10, 20, …, 100). -/
theorem joinExistingCluster_spec :
    (∀ (gets : Nat → Except String (Option (List String)))
        (joinLiveNode : String → Option String) (k : Nat),
      k < 10 →
      (∀ i, i < k → (FindLiveNode (gets i)).1 = "") →
      (FindLiveNode (gets k)).1 ≠ "" →
      JoinExistingCluster gets joinLiveNode =
        (joinLiveNode (FindLiveNode (gets k)).1,
         (List.range k).map (fun j => 10 * (j + 1)))) ∧
    (∀ (gets : Nat → Except String (Option (List String)))
        (joinLiveNode : String → Option String),
      (∀ i, i < 10 → (FindLiveNode (gets i)).1 = "") →
      JoinExistingCluster gets joinLiveNode =
        (some "Failed to join cluster after several retries",
         (List.range 10).map (fun j => 10 * (j + 1)))) := by
  constructor
  · intro gets joinLiveNode k hk hempty hfound
    obtain ⟨m, hm⟩ : ∃ m, MAX_RETRIES_JOIN_CLUSTER = k + (m + 1) :=
      ⟨10 - k - 1, by simp [MAX_RETRIES_JOIN_CLUSTER]; omega⟩
    unfold JoinExistingCluster
    rw [hm, joinLoop_advance gets joinLiveNode k 0 0 (m + 1)
      (fun n hn1 hn2 => hempty n (by omega))]
    rw [joinLoop_found gets joinLiveNode (0 + k) (0 + 10 * k) m
      (by simpa using hfound)]
    simp
  · intro gets joinLiveNode hempty
    obtain hm : MAX_RETRIES_JOIN_CLUSTER = 10 + 0 := rfl
    unfold JoinExistingCluster
    rw [hm, joinLoop_advance gets joinLiveNode 10 0 0 0
      (fun n hn1 hn2 => hempty n (by omega))]
    simp [joinLoop]

/-- Witness for C8: the peer appears on attempt 2 (so sleeps 10 and 20
happen first), and a run where no peer ever appears. -/
theorem joinExistingCluster_spec_witness :
    JoinExistingCluster
      (fun i => if i = 2
        then .ok (some ["/couchbase.com/couchbase-node-state/10.0.0.5:8091"])
        else .ok none)
      (fun ip => some ("joined " ++ ip)) =
      (some "joined 10.0.0.5:8091", [10, 20]) ∧
    JoinExistingCluster (fun _ => .ok none) (fun ip => some ("joined " ++ ip)) =
      (some "Failed to join cluster after several retries",
       [10, 20, 30, 40, 50, 60, 70, 80, 90, 100]) := by
  constructor
  · exact joinExistingCluster_spec.1 _ _ 2 (by omega)
      (fun i h => by interval_cases i <;> rfl) (by decide)
  · exact joinExistingCluster_spec.2 _ _ (fun i h => rfl)

/-- A character list that splits into at least two parts on `sep`
contains `sep`. -/
theorem containsSeq_of_splitOnChar (sep : Char) :
    ∀ s : List Char, 2 ≤ (splitOnChar sep s).length → containsSeq s [sep] = true := by
  intro s
  induction s with
  | nil =>
    intro h
    simp [splitOnChar] at h
  | cons c cs ih =>
    intro h
    by_cases hc : (c == sep) = true
    · simp [containsSeq, startsWith, hc]
    · have hc' : (c == sep) = false := by simpa using hc
      simp only [splitOnChar, hc', Bool.false_eq_true, if_false] at h
      have h2 : 2 ≤ (splitOnChar sep cs).length := by
        rcases hsp : splitOnChar sep cs with _ | ⟨r, rs⟩
        · rw [hsp] at h
          simp at h
        · rw [hsp] at h
          simpa using h
      have hrec := ih h2
      simp [containsSeq, startsWith, hc', hrec]

/-- One `loadCredsLoop` iteration on which the etcd read fails retries
with the next attempt. -/
theorem loadCredsLoop_skip (gets : Nat → Except String String) (c : Creds)
    (i r : Nat) (e : String) (h : gets i = .error e) :
    loadCredsLoop gets c i (r + 1) = loadCredsLoop gets c (i + 1) r := by
  simp [loadCredsLoop, h]

/-- Advancing `loadCredsLoop` over a block of failing etcd reads. -/
theorem loadCredsLoop_advance (gets : Nat → Except String String) (c : Creds) :
    ∀ (d i r : Nat),
      (∀ n, i ≤ n → n < i + d → ∃ e, gets n = .error e) →
      loadCredsLoop gets c i (d + r) = loadCredsLoop gets c (i + d) r := by
  intro d
  induction d with
  | zero => intro i r h; simp
  | succ d ih =>
    intro i r h
    obtain ⟨e, he⟩ := h i (Nat.le_refl i) (by omega)
    have hd : d + 1 + r = (d + r) + 1 := by omega
    rw [hd, loadCredsLoop_skip gets c i (d + r) e he]
    have hi : i + (d + 1) = (i + 1) + d := by omega
    rw [hi]
    exact ih (i + 1) r (fun n h1 h2 => h n (by omega) (by omega))

/-- Claim C9: on the first successful etcd read (attempt `k`, every
earlier attempt having failed): a value without a colon makes
`LoadAdminCredsFromEtcd` return an error at once — the reads after
attempt `k` are unconstrained, so no retry happens — leaving the
credential fields unchanged; a value splitting as `u :: p :: rest` on
`":"` sets `AdminUsername` to `u` (the text before the first colon) and
`AdminPassword` to `p` (the text between the first and second colons),
silently dropping `rest`. -/
theorem loadAdminCredsFromEtcd_spec :
    (∀ (gets : Nat → Except String String) (c : Creds) (k : Nat) (v : String),
      k < 10 →
      (∀ i, i < k → ∃ e, gets i = .error e) →
      gets k = .ok v →
      stringsContains v ":" = false →
      LoadAdminCredsFromEtcd gets c = (c, some ("Invalid user/pass: " ++ v))) ∧
    (∀ (gets : Nat → Except String String) (c : Creds) (k : Nat)
        (v u p : String) (rest : List String),
      k < 10 →
      (∀ i, i < k → ∃ e, gets i = .error e) →
      gets k = .ok v →
      goSplit v ':' = u :: p :: rest →
      LoadAdminCredsFromEtcd gets c =
        ({ AdminUsername := u, AdminPassword := p }, none)) := by
  constructor
  · intro gets c k v hk hpre hok hnc
    obtain ⟨m, hm⟩ : ∃ m, MAX_RETRIES_JOIN_CLUSTER = k + (m + 1) :=
      ⟨10 - k - 1, by simp [MAX_RETRIES_JOIN_CLUSTER]; omega⟩
    unfold LoadAdminCredsFromEtcd
    rw [hm, loadCredsLoop_advance gets c k 0 (m + 1)
      (fun n h1 h2 => hpre n (by omega))]
    have h0 : 0 + k = k := by omega
    rw [h0]
    simp [loadCredsLoop, hok, hnc]
  · intro gets c k v u p rest hk hpre hok hsp
    have hlen : 2 ≤ (splitOnChar ':' v.data).length := by
      have hlm : (goSplit v ':').length = (splitOnChar ':' v.data).length := by
        simp [goSplit]
      rw [hsp] at hlm
      simp at hlm
      omega
    have hcon : stringsContains v ":" = true :=
      containsSeq_of_splitOnChar ':' v.data hlen
    obtain ⟨m, hm⟩ : ∃ m, MAX_RETRIES_JOIN_CLUSTER = k + (m + 1) :=
      ⟨10 - k - 1, by simp [MAX_RETRIES_JOIN_CLUSTER]; omega⟩
    unfold LoadAdminCredsFromEtcd
    rw [hm, loadCredsLoop_advance gets c k 0 (m + 1)
      (fun n h1 h2 => hpre n (by omega))]
    have h0 : 0 + k = k := by omega
    rw [h0]
    simp [loadCredsLoop, hok, hcon, hsp]

/-- Witness for C9: credentials `"bob:secret:extra"` read on attempt 1
after one failed read — the username is `"bob"`, the password `"secret"`,
and `":extra"` is dropped; and a colon-free value returned immediately
as an error with the fields untouched. -/
theorem loadAdminCredsFromEtcd_spec_witness :
    LoadAdminCredsFromEtcd
      (fun i => if i = 1 then .ok "bob:secret:extra" else .error "100: Key not found")
      { AdminUsername := "", AdminPassword := "" } =
      ({ AdminUsername := "bob", AdminPassword := "secret" }, none) ∧
    LoadAdminCredsFromEtcd (fun _ => .ok "nocolon")
      { AdminUsername := "u0", AdminPassword := "p0" } =
      ({ AdminUsername := "u0", AdminPassword := "p0" },
       some "Invalid user/pass: nocolon") := by
  constructor
  · exact loadAdminCredsFromEtcd_spec.2 _ _ 1 "bob:secret:extra" "bob" "secret"
      ["extra"] (by omega)
      (fun i h => ⟨"100: Key not found", by interval_cases i; rfl⟩)
      rfl (by decide)
  · exact loadAdminCredsFromEtcd_spec.1 _ _ 0 "nocolon" (by omega)
      (fun i h => absurd h (Nat.not_lt_zero i)) rfl (by decide)

end CbCluster
